import Mathlib

set_option maxRecDepth 100000

/-!
Verification of the workspace-scoped file-operation engine of tanukimcp-thought.

The definitions below are a shallow embedding, translated from:

* `src/utils/path-utils.ts` (`resolveWorkspacePath`, `normalizeWindowsPath`);
* the `isCriticalSystemPath` helper shared by the file-operation tools
  (`src/tools/file-ops/edit-file.ts` and its siblings);
* `src/utils/file-utils.ts` (`createFile`, `editFile`, `deleteFile`, `moveFile`,
  `copyFile`, `createDirectory`, `deleteDirectory` and the in-memory change
  applier of `editFile`);
* the `batch_operations` tool (`validateOperation`, `describeOperation`,
  `executeOperation` and the batch execute loop);
* the `create_file` tool pipeline (`src/tools/file-ops/create-file.ts`).

Node built-ins used by that code (POSIX path resolution, `String.prototype.replace`,
`split`/`join`, `Array.prototype.splice`, truthiness of optional string fields,
percent decoding) are modelled explicitly.  Strings are handled through their
character lists; the ASCII case of `toLowerCase`/`toUpperCase` is modelled by
`Char.toLower`/`Char.toUpper` (all paths matched by the engine's patterns are
ASCII).  Filesystem state is an explicit record threaded through the operations,
together with a trace of the I/O actions performed, and a thrown JS `Error` is
modelled by `Except.error`.
-/

namespace Tanuki

/-- JS `String.prototype.startsWith`. -/
def jsStartsWith (pattern s : String) : Bool := decide (pattern.data <+: s.data)

/-- JS `String.prototype.includes`. -/
def jsIncludes (pattern s : String) : Bool := decide (pattern.data <:+: s.data)

/-- JS `String.prototype.endsWith`. -/
def jsEndsWith (pattern s : String) : Bool := decide (pattern.data <:+ s.data)

/-- ASCII fragment of JS `String.prototype.toLowerCase` (the engine's critical
path patterns are all ASCII). -/
def jsToLower (s : String) : String := String.mk (s.data.map Char.toLower)

/-- JS `replace(/\\/g, '/')`: every backslash becomes a forward slash. -/
def slashify (s : String) : String :=
  String.mk (s.data.map fun c => if c = '\\' then '/' else c)

/-! ## The critical-path guard

`isCriticalSystemPath` is duplicated verbatim in every file-operation tool and
in the batch tool; the pattern list below is that shared list.  Anchored regexes
`/^pat/` become `jsStartsWith`, unanchored ones become `jsIncludes`, and
`/pat$/` becomes `jsEndsWith`. -/

/-- The `/^.../`-anchored critical patterns (Unix and Windows system
directories). -/
def criticalPrefixPatterns : List String :=
  ["/etc/", "/bin/", "/sbin/", "/boot/", "/proc/", "/sys/", "/dev/",
   "/var/log/", "/var/spool/", "c:/windows/", "c:/program files/",
   "c:/program files (x86)/", "c:/system"]

/-- The unanchored critical patterns (VCS metadata and dependency
directories). -/
def criticalInfixPatterns : List String := [".git/", ".github/", "node_modules/"]

/-- The `/...$/`-anchored critical patterns (lockfiles and secrets). -/
def criticalSuffixPatterns : List String :=
  ["package-lock.json", "yarn.lock", ".env", "authorized_keys", "id_rsa", ".pem"]

/-- The regex `/^c:\/users\/.*\/appdata\//i` applied to the already lowercased
path: a `c:/users/` prefix followed somewhere later by `/appdata/`
(`"c:/users/"` is 9 characters long, hence the `drop 9`). -/
def appDataPattern (s : String) : Bool :=
  jsStartsWith "c:/users/" s && decide ("/appdata/".data <:+: s.data.drop 9)

/-- `isCriticalSystemPath` from the file-operation tools: lowercase the path,
normalize backslashes to forward slashes, then test the fixed pattern list. -/
def isCriticalSystemPath (filePath : String) : Bool :=
  let normalizedPath := slashify (jsToLower filePath)
  criticalPrefixPatterns.any (fun p => jsStartsWith p normalizedPath)
  || appDataPattern normalizedPath
  || criticalInfixPatterns.any (fun p => jsIncludes p normalizedPath)
  || criticalSuffixPatterns.any (fun p => jsEndsWith p normalizedPath)

/-! ## Windows path normalization (`normalizeWindowsPath`) -/

/-- Hexadecimal digit value, as used by percent decoding. -/
def hexDigitVal (c : Char) : Option Nat :=
  if '0' ≤ c ∧ c ≤ '9' then some (c.toNat - 48)
  else if 'a' ≤ c ∧ c ≤ 'f' then some (c.toNat - 87)
  else if 'A' ≤ c ∧ c ≤ 'F' then some (c.toNat - 55)
  else none

/-- JS `decodeURIComponent` restricted to single-byte escapes (the drive-letter
escapes the source cares about, such as `%3A`, are single-byte).  `none` models
the thrown `URIError` on a malformed escape. -/
def percentDecode : List Char → Option (List Char)
  | [] => some []
  | '%' :: a :: b :: rest =>
    match hexDigitVal a, hexDigitVal b with
    | some hi, some lo => (percentDecode rest).map (fun r => Char.ofNat (16 * hi + lo) :: r)
    | _, _ => none
  | '%' :: _ => none
  | c :: rest => (percentDecode rest).map (fun r => c :: r)

/-- The test `windowsPath.startsWith('/') && /^\/[a-zA-Z]%3A\//.test(windowsPath)`. -/
def encodedDrivePattern : List Char → Bool
  | '/' :: l :: rest => l.isAlpha && decide ("%3A/".data <+: rest)
  | _ => false

/-- After decoding, the `/^\/[a-zA-Z]:\//` test and the drive rewrite
`` `${driveLetter}:\\${restOfPath}` `` where `restOfPath` is
`decodedPath.substring(3)` with `/` replaced by `\`.  Note `substring(3)`
keeps the slash in front of the path body, so the rebuilt string carries a
doubled backslash after the drive letter, exactly as the source computes it. -/
def rebuildDrivePath : List Char → Option (List Char)
  | '/' :: l :: ':' :: '/' :: rest =>
    if l.isAlpha then
      some (l.toUpper :: ':' :: '\\' ::
        (('/' :: rest).map fun c => if c = '/' then '\\' else c))
    else none
  | _ => none

/-- `(before, after)` around the first occurrence of a nonempty `needle` in `s`,
with the needle removed. -/
def firstOccurrenceSplit (needle : List Char) : List Char → Option (List Char × List Char)
  | [] => none
  | c :: cs =>
    if decide (needle <+: c :: cs) then some ([], (c :: cs).drop needle.length)
    else
      match firstOccurrenceSplit needle cs with
      | some (a, b) => some (c :: a, b)
      | none => none

/-- `s.split(needle)[1]` for a JS string split, defined when the needle occurs
at least once (i.e. when `parts.length > 1`): the chunk between the first
occurrence and the following occurrence or the end of the string. -/
def splitPart1 (needle s : List Char) : Option (List Char) :=
  match firstOccurrenceSplit needle s with
  | none => none
  | some (_, post) =>
    match firstOccurrenceSplit needle post with
    | some (mid, _) => some mid
    | none => some post

/-- `normalizeWindowsPath` from `src/utils/path-utils.ts`.  The second branch
(the `C:\c%3A\` "double-encoded" fix) is kept for fidelity although it is
unreachable: its needles contain `%3A`, so the first branch always fires
first. -/
def normalizeWindowsPath (windowsPath : String) : String :=
  if windowsPath = "" then windowsPath
  else if jsIncludes "%3A" windowsPath then
    if encodedDrivePattern windowsPath.data then
      match percentDecode windowsPath.data with
      | some decoded =>
        match rebuildDrivePath decoded with
        | some rebuilt => String.mk rebuilt
        | none => String.mk decoded
      | none => windowsPath
    else
      match percentDecode windowsPath.data with
      | some decoded => String.mk decoded
      | none => windowsPath
  else if jsIncludes "C:\\c%3A\\" windowsPath || jsIncludes "C:\\C%3A\\" windowsPath then
    match splitPart1 "\\c%3A\\".data windowsPath.data with
    | some part1 => "C:\\" ++ String.mk part1
    | none => windowsPath
  else windowsPath

/-! ## POSIX path resolution

The source calls Node's `path` module; the server runs it on a POSIX host, so
`path.isAbsolute`, `path.resolve` and `path.dirname` are modelled with their
`path.posix` semantics. -/

/-- Node `path.posix.isAbsolute`: the path starts with a slash. -/
def posixIsAbsolute (s : List Char) : Bool :=
  match s with
  | [] => false
  | c :: _ => c = '/'

/-- Split a character list on a separator character (JS `String.prototype.split`
with a single-character separator: always returns at least one, possibly empty,
segment). -/
def splitOnChar (sep : Char) : List Char → List (List Char)
  | [] => [[]]
  | c :: cs =>
    match splitOnChar sep cs with
    | [] => [[]]
    | seg :: rest => if c = sep then [] :: seg :: rest else (c :: seg) :: rest

/-- Join segments with a separator character (JS `Array.prototype.join`). -/
def joinWithChar (sep : Char) : List (List Char) → List Char
  | [] => []
  | [seg] => seg
  | seg :: rest => seg ++ sep :: joinWithChar sep rest

/-- One step of Node's `normalizeStringPosix` for an absolute path: empty and
`.` segments are dropped, `..` pops the last accumulated segment (and is
dropped at the root), anything else is pushed. -/
def normStep (stack : List (List Char)) (seg : List Char) : List (List Char) :=
  if seg = [] ∨ seg = ['.'] then stack
  else if seg = ['.', '.'] then stack.dropLast
  else stack ++ [seg]

/-- The normalized segment list of a slash-separated path. -/
def normSegs (segs : List (List Char)) : List (List Char) := segs.foldl normStep []

/-- Node `path.posix.resolve(root, target)` for an absolute `root` and a
relative `target`: normalize `root ++ "/" ++ target` and re-anchor it at the
root. -/
def posixResolve (root target : List Char) : List Char :=
  '/' :: joinWithChar '/' (normSegs (splitOnChar '/' (root ++ '/' :: target)))

/-- `resolveWorkspacePath` from `src/utils/path-utils.ts`.  `Except.error`
models the thrown `Error`; the branches are in source order: the emptiness
check, the Windows normalization of the root, the absolute-target early
return, the root-absoluteness check, and the resolution. -/
def resolveWorkspacePath (workspaceRoot targetPath : String) : Except String String :=
  if workspaceRoot = "" ∨ workspaceRoot = "." then
    Except.error "workspace_root parameter is required and must be an absolute path"
  else
    let root := normalizeWindowsPath workspaceRoot
    if posixIsAbsolute targetPath.data then Except.ok targetPath
    else if !posixIsAbsolute root.data then
      Except.error ("workspace_root must be an absolute path, got: " ++ root)
    else Except.ok (String.mk (posixResolve root.data targetPath.data))

/-- The normalized segments of an absolute path. -/
def absSegs (p : List Char) : List (List Char) := normSegs (splitOnChar '/' p)

/-- The spec's notion of confinement: `p` is a descendant of `root` when the
normalized segments of `root` are an initial segment of those of `p`. -/
def isDescendantOf (p root : String) : Bool :=
  decide (absSegs root.data <+: absSegs p.data)

/-- Node `path.posix.dirname`: strip trailing slashes, then the final segment;
`"."` when no separator remains, `"/"` for root paths.  (Agrees with Node on
every path the engine produces; Node's special case for a doubly-slashed root
such as `"//a"` is not modelled.) -/
def posixDirname (p : String) : String :=
  let rev1 := p.data.reverse.dropWhile (fun c => c = '/')
  let rev2 := rev1.dropWhile (fun c => c != '/')
  match rev2 with
  | [] => if posixIsAbsolute p.data then "/" else "."
  | _ :: [] => "/"
  | _ :: rest => String.mk rest.reverse

/-! ## The edit applier

`editFile` in `src/utils/file-utils.ts` applies an ordered list of loosely
typed change records; a change whose guard fails (wrong `type`, or a required
field that is absent or — by JS truthiness — the empty string) is silently
skipped. -/

/-- A single edit instruction, mirroring the TS record with its optional
fields. -/
structure Change where
  type : String
  old : Option String := none
  new : Option String := none
  content : Option String := none
  line : Option Int := none
deriving DecidableEq, Repr

/-- JS truthiness of an optional string field: present and nonempty. -/
def truthy : Option String → Bool
  | none => false
  | some s => s != ""

/-- JS `String.prototype.replace` with a string pattern: replace the first
occurrence of `old` (matching at the earliest position), leaving the rest of
the string untouched.  Replacement strings containing `$`-substitution
patterns are outside this model. -/
def replaceFirst (s old new : List Char) : List Char :=
  match s with
  | [] => if old = [] then new else []
  | c :: cs =>
    if decide (old <+: c :: cs) then new ++ (c :: cs).drop old.length
    else c :: replaceFirst cs old new

/-- JS `Array.prototype.splice(start, 0, item)`: insert `item` at index
`start`, clamping an index beyond the end to an append. -/
def spliceInsert : Nat → List Char → List (List Char) → List (List Char)
  | 0, item, ls => item :: ls
  | _ + 1, item, [] => [item]
  | n + 1, item, l :: ls => l :: spliceInsert n item ls

/-- One iteration of the change loop in `editFile` (file-utils.ts lines
93-107).  Each guard is the source's truthiness test; `insert_at_line`
additionally requires `line` to be present and inserts only when
`0 <= line <= lines.length`, otherwise the content is left unchanged. -/
def applyChange (content : List Char) (change : Change) : List Char :=
  if change.type = "replace" ∧ truthy change.old ∧ truthy change.new then
    replaceFirst content (change.old.getD "").data (change.new.getD "").data
  else if change.type = "append" ∧ truthy change.content then
    content ++ (change.content.getD "").data
  else if change.type = "prepend" ∧ truthy change.content then
    (change.content.getD "").data ++ content
  else if change.type = "insert_at_line" ∧ change.line ≠ none ∧ truthy change.content then
    let lines := splitOnChar '\n' content
    let l := change.line.getD 0
    if 0 ≤ l ∧ l ≤ (lines.length : Int) then
      joinWithChar '\n' (spliceInsert l.toNat (change.content.getD "").data lines)
    else content
  else content

/-- The full change loop of `editFile`: changes are applied in array order,
each to the result of the previous one. -/
def applyChanges (content : List Char) (changes : List Change) : List Char :=
  changes.foldl applyChange content

/-! ## The filesystem model

A flat record of files (path ↦ content) and directories, together with a trace
of the `fs`-module calls each operation performs.  Synchronous existence
probes (`existsSync`) are evaluated on the state directly and are not traced;
every `fs/promises` call of the modelled code paths is traced.  The catch-all
wrappers of file-utils (`Failed to ... file:`) re-throw OS-level failures,
which the model's filesystem cannot produce, so they do not appear here. -/

/-- Filesystem state: an association list of files (most recent entry first)
and a list of directories. -/
structure FSState where
  files : List (String × String)
  dirs : List String
deriving DecidableEq, Repr

/-- The empty filesystem. -/
def FSState.empty : FSState := ⟨[], []⟩

/-- The `fs`-module calls the engine performs, recorded as a trace. -/
inductive FsAction where
  | access (p : String)
  | readFile (p : String)
  | writeFile (p content : String)
  | mkdir (p : String)
  | rename (src dst : String)
  | copyFile (src dst : String)
  | unlink (p : String)
  | readdir (p : String)
  | rm (p : String)
  | rmdir (p : String)
deriving DecidableEq, Repr

/-- `fs.access` / `existsSync`: true when a file or a directory exists at the
path (both Node calls succeed for either kind of entry). -/
def fileExists (fs : FSState) (p : String) : Bool :=
  (fs.files.lookup p).isSome || fs.dirs.contains p

/-- `fs.writeFile`: create or overwrite a file. -/
def fsWrite (fs : FSState) (p content : String) : FSState :=
  { fs with files := (p, content) :: fs.files.filter (fun e => e.1 != p) }

/-- `fs.readFile` on the model state (reading a missing entry yields `""`;
the engine only reads after an existence check). -/
def fsRead (fs : FSState) (p : String) : String :=
  (fs.files.lookup p).getD ""

/-- `fs.mkdir` on the model state. -/
def fsAddDir (fs : FSState) (p : String) : FSState :=
  { fs with dirs := p :: fs.dirs }

/-- `fs.unlink` on the model state. -/
def fsRemoveFile (fs : FSState) (p : String) : FSState :=
  { fs with files := fs.files.filter (fun e => e.1 != p) }

/-- `fs.rmdir` on the model state. -/
def fsRemoveDir (fs : FSState) (p : String) : FSState :=
  { fs with dirs := fs.dirs.filter (fun d => d != p) }

/-- `fs.rm(recursive, force)`: remove the directory and everything below it. -/
def fsRemoveTree (fs : FSState) (dirPath : String) : FSState :=
  { files := fs.files.filter fun e => !(e.1 == dirPath || jsStartsWith (dirPath ++ "/") e.1),
    dirs := fs.dirs.filter fun d => !(d == dirPath || jsStartsWith (dirPath ++ "/") d) }

/-- `fs.readdir` on the model state: the entries whose parent is the given
directory. -/
def fsChildren (fs : FSState) (dirPath : String) : List String :=
  (fs.files.map Prod.fst ++ fs.dirs).filter fun p =>
    p != dirPath && posixDirname p == dirPath

/-! ## The file-operation engine (`src/utils/file-utils.ts`) -/

/-- `createFile(filePath, content, overwrite)`: ensure the parent directory,
then refuse to overwrite an existing file unless asked, then write. -/
def createFile (fs : FSState) (filePath content : String) (overwrite : Bool) :
    String × FSState × List FsAction :=
  let dir := posixDirname filePath
  let (fs1, mkActs) :=
    if !fileExists fs dir then (fsAddDir fs dir, [FsAction.mkdir dir]) else (fs, [])
  let checkActs := if !overwrite then [FsAction.access filePath] else []
  if !overwrite && fileExists fs1 filePath then
    ("Error: File already exists at " ++ filePath ++ ". Set overwrite=true to overwrite.",
      fs1, mkActs ++ checkActs)
  else
    ("File created at " ++ filePath, fsWrite fs1 filePath content,
      mkActs ++ checkActs ++ [FsAction.writeFile filePath content])

/-- `editFile(filePath, changes)`: not-found short circuit, one read, the
change loop, one write. -/
def editFile (fs : FSState) (filePath : String) (changes : List Change) :
    String × FSState × List FsAction :=
  if !fileExists fs filePath then
    ("Error: File not found: " ++ filePath, fs, [FsAction.access filePath])
  else
    let content := fsRead fs filePath
    let newContent := String.mk (applyChanges content.data changes)
    ("File edited at " ++ filePath, fsWrite fs filePath newContent,
      [FsAction.access filePath, FsAction.readFile filePath,
        FsAction.writeFile filePath newContent])

/-- `deleteFile(filePath)`: a missing file is reported, not thrown. -/
def deleteFile (fs : FSState) (filePath : String) : String × FSState × List FsAction :=
  if !fileExists fs filePath then
    ("File not found: " ++ filePath, fs, [FsAction.access filePath])
  else
    ("File deleted: " ++ filePath, fsRemoveFile fs filePath,
      [FsAction.access filePath, FsAction.unlink filePath])

/-- `moveFile(fromPath, toPath, overwrite)`.  The source-missing and
destination-exists cases return plain result strings — they do not throw. -/
def moveFile (fs : FSState) (fromPath toPath : String) (overwrite : Bool) :
    String × FSState × List FsAction :=
  if !fileExists fs fromPath then
    ("Source file not found: " ++ fromPath, fs, [FsAction.access fromPath])
  else
    let checkActs :=
      [FsAction.access fromPath] ++ if !overwrite then [FsAction.access toPath] else []
    if !overwrite && fileExists fs toPath then
      ("Destination file already exists: " ++ toPath ++ ". Set overwrite=true to overwrite.",
        fs, checkActs)
    else
      let toDir := posixDirname toPath
      let (fs1, mkActs) :=
        if !fileExists fs toDir then (fsAddDir fs toDir, [FsAction.mkdir toDir]) else (fs, [])
      let content := fsRead fs1 fromPath
      ("File moved from " ++ fromPath ++ " to " ++ toPath,
        fsWrite (fsRemoveFile fs1 fromPath) toPath content,
        checkActs ++ mkActs ++ [FsAction.rename fromPath toPath])

/-- `copyFile(fromPath, toPath, overwrite)`: same checks as `moveFile`, source
kept. -/
def copyFile (fs : FSState) (fromPath toPath : String) (overwrite : Bool) :
    String × FSState × List FsAction :=
  if !fileExists fs fromPath then
    ("Source file not found: " ++ fromPath, fs, [FsAction.access fromPath])
  else
    let checkActs :=
      [FsAction.access fromPath] ++ if !overwrite then [FsAction.access toPath] else []
    if !overwrite && fileExists fs toPath then
      ("Destination file already exists: " ++ toPath ++ ". Set overwrite=true to overwrite.",
        fs, checkActs)
    else
      let toDir := posixDirname toPath
      let (fs1, mkActs) :=
        if !fileExists fs toDir then (fsAddDir fs toDir, [FsAction.mkdir toDir]) else (fs, [])
      let content := fsRead fs1 fromPath
      ("File copied from " ++ fromPath ++ " to " ++ toPath,
        fsWrite fs1 toPath content,
        checkActs ++ mkActs ++ [FsAction.copyFile fromPath toPath])

/-- `createDirectory(dirPath, recursive)`: a no-op success when the directory
(or any entry) already exists at the path.  The flat model registers the
directory itself; materializing intermediate parents has no observable effect
here, so the `recursive` flag only matters to the real OS call. -/
def createDirectory (fs : FSState) (dirPath : String) (_recursive : Bool) :
    String × FSState × List FsAction :=
  if fileExists fs dirPath then ("Directory already exists at " ++ dirPath, fs, [])
  else ("Directory created at " ++ dirPath, fsAddDir fs dirPath, [FsAction.mkdir dirPath])

/-- `deleteDirectory(dirPath, recursive, dryRun)`: dry-run preview strings,
the non-empty guard for the non-recursive case, then `rm -rf` or `rmdir`. -/
def deleteDirectory (fs : FSState) (dirPath : String) (recursive dryRun : Bool) :
    String × FSState × List FsAction :=
  if !fileExists fs dirPath then ("Directory not found: " ++ dirPath, fs, [])
  else
    let entries := fsChildren fs dirPath
    if dryRun then
      if entries.length > 0 && !recursive then
        ("DRY RUN: Would fail to delete non-empty directory " ++ dirPath ++
          ". Use recursive=true to delete with contents.", fs, [FsAction.readdir dirPath])
      else
        ("DRY RUN: Would delete directory " ++ dirPath ++
          (if recursive then " and all its contents" else ""), fs, [FsAction.readdir dirPath])
    else if entries.length > 0 && !recursive then
      ("Error: Directory is not empty: " ++ dirPath ++
        ". Use recursive=true to delete non-empty directories.", fs, [FsAction.readdir dirPath])
    else if recursive then
      ("Directory deleted: " ++ dirPath ++ " (including all contents)",
        fsRemoveTree fs dirPath, [FsAction.readdir dirPath, FsAction.rm dirPath])
    else
      ("Directory deleted: " ++ dirPath, fsRemoveDir fs dirPath,
        [FsAction.readdir dirPath, FsAction.rmdir dirPath])

/-! ## The `create_file` tool pipeline (`src/tools/file-ops/create-file.ts`) -/

/-- Arguments of the `create_file` tool. -/
structure CreateFileArgs where
  path : String
  content : String
  overwrite : Bool := false
  create_parent_dirs : Bool := true
  workspace_root : String
deriving Repr

/-- The `execute` pipeline of the `create_file` tool: empty-path check,
critical-path check on the raw caller-supplied path, workspace resolution,
existence check, parent creation, then `createFile` (whose returned message
the tool discards in favour of its own success string).  A resolution error is
thrown and caught by the tool's catch-all, surfacing with the
`Error: Failed to create file -` prefix. -/
def createFileTool (args : CreateFileArgs) (fs : FSState) : String × FSState × List FsAction :=
  if args.path = "" then ("Error: File path cannot be empty.", fs, [])
  else if isCriticalSystemPath args.path then
    ("Error: Operation denied - \"" ++ args.path ++ "\" appears to be a critical system path.",
      fs, [])
  else
    match resolveWorkspacePath args.workspace_root args.path with
    | Except.error e => ("Error: Failed to create file - " ++ e, fs, [])
    | Except.ok resolved =>
      let checkActs := if !args.overwrite then [FsAction.access resolved] else []
      if !args.overwrite && fileExists fs resolved then
        ("Error: File \"" ++ resolved ++ "\" already exists. Set overwrite=true to overwrite.",
          fs, checkActs)
      else
        let dirPath := posixDirname resolved
        if args.create_parent_dirs then
          let (fs1, dirActs) :=
            if !fileExists fs dirPath then (fsAddDir fs dirPath, [FsAction.mkdir dirPath])
            else (fs, [])
          let r := createFile fs1 resolved args.content args.overwrite
          ("Successfully created file at \"" ++ resolved ++
            "\".\n\n[Note for AI assistants: When using this tool, always set the workspace_root parameter to the user's current working directory, not the tool's directory. Check last_terminal_cwd or conversation context.]",
            r.2.1, checkActs ++ dirActs ++ r.2.2)
        else if !fileExists fs dirPath then
          ("Error: Parent directory for \"" ++ resolved ++
            "\" does not exist. Set create_parent_dirs=true to create it.", fs, checkActs)
        else
          let r := createFile fs resolved args.content args.overwrite
          ("Successfully created file at \"" ++ resolved ++
            "\".\n\n[Note for AI assistants: When using this tool, always set the workspace_root parameter to the user's current working directory, not the tool's directory. Check last_terminal_cwd or conversation context.]",
            r.2.1, checkActs ++ r.2.2)

/-! ## The `batch_operations` tool -/

/-- A parsed batch operation as it arrives from the JSON array: a loosely
typed record whose fields may be absent.  (`JSON.parse` and the
is-this-an-array check happen before this model's entry point, and non-object
array entries are outside it.) -/
structure RawOp where
  type : Option String := none
  path : Option String := none
  content : Option String := none
  changes : Option (List Change) := none
  «from» : Option String := none
  «to» : Option String := none
  overwrite : Option Bool := none
  create_backup : Option Bool := none
  recursive : Option Bool := none
  dry_run : Option Bool := none
deriving DecidableEq, Repr

/-- `validateOperation(op, index, workspaceRoot)` from the batch tool: `none`
means valid (the source returns `true`), `some msg` is the validation error.
Every check runs on the raw, unresolved paths; `workspaceRoot` is accepted for
fidelity but never consulted.  Field-presence checks are JS truthiness, except
`content`, which the source explicitly lets be the empty string. -/
def validateOperation (op : RawOp) (index : Nat) (_workspaceRoot : String) : Option String :=
  let opn := toString (index + 1)
  if !truthy op.type then some ("Operation " ++ opn ++ ": Missing 'type' property")
  else
    match op.type.getD "" with
    | "create_file" =>
      if !truthy op.path then
        some ("Operation " ++ opn ++ ": Missing 'path' property for create_file operation")
      else if op.content = none then
        some ("Operation " ++ opn ++ ": Missing 'content' property for create_file operation")
      else if isCriticalSystemPath (op.path.getD "") then
        some ("Operation " ++ opn ++ ": Invalid path - \"" ++ op.path.getD "" ++
          "\" appears to be a critical system path")
      else none
    | "edit_file" =>
      if !truthy op.path then
        some ("Operation " ++ opn ++ ": Missing 'path' property for edit_file operation")
      else if op.changes = none ∨ (op.changes.getD []).length = 0 then
        some ("Operation " ++ opn ++ ": Missing or invalid 'changes' property for edit_file operation")
      else if isCriticalSystemPath (op.path.getD "") then
        some ("Operation " ++ opn ++ ": Invalid path - \"" ++ op.path.getD "" ++
          "\" appears to be a critical system path")
      else none
    | "delete_file" =>
      if !truthy op.path then
        some ("Operation " ++ opn ++ ": Missing 'path' property for delete_file operation")
      else if isCriticalSystemPath (op.path.getD "") then
        some ("Operation " ++ opn ++ ": Invalid path - \"" ++ op.path.getD "" ++
          "\" appears to be a critical system path")
      else none
    | "move_file" =>
      if !truthy op.«from» then
        some ("Operation " ++ opn ++ ": Missing 'from' property for move_file operation")
      else if !truthy op.«to» then
        some ("Operation " ++ opn ++ ": Missing 'to' property for move_file operation")
      else if isCriticalSystemPath (op.«from».getD "") || isCriticalSystemPath (op.«to».getD "") then
        some ("Operation " ++ opn ++ ": Invalid path - source or target appears to be a critical system path")
      else none
    | "copy_file" =>
      if !truthy op.«from» then
        some ("Operation " ++ opn ++ ": Missing 'from' property for copy_file operation")
      else if !truthy op.«to» then
        some ("Operation " ++ opn ++ ": Missing 'to' property for copy_file operation")
      else if isCriticalSystemPath (op.«from».getD "") || isCriticalSystemPath (op.«to».getD "") then
        some ("Operation " ++ opn ++ ": Invalid path - source or target appears to be a critical system path")
      else none
    | "create_directory" =>
      if !truthy op.path then
        some ("Operation " ++ opn ++ ": Missing 'path' property for create_directory operation")
      else if isCriticalSystemPath (op.path.getD "") then
        some ("Operation " ++ opn ++ ": Invalid path - \"" ++ op.path.getD "" ++
          "\" appears to be a critical system path")
      else none
    | "delete_directory" =>
      if !truthy op.path then
        some ("Operation " ++ opn ++ ": Missing 'path' property for delete_directory operation")
      else if isCriticalSystemPath (op.path.getD "") then
        some ("Operation " ++ opn ++ ": Invalid path - \"" ++ op.path.getD "" ++
          "\" appears to be a critical system path")
      else none
    | _ =>
      some ("Operation " ++ opn ++ ": Unknown operation type \"" ++ op.type.getD "" ++ "\"")

/-- The up-front validation loop of the batch tool: the non-`true` results of
`validateOperation`, in operation order. -/
def validationErrors (ops : List RawOp) (workspaceRoot : String) : List String :=
  ops.enum.filterMap fun p => validateOperation p.2 p.1 workspaceRoot

/-- JS `Array.prototype.join('\n')`. -/
def joinLines : List String → String
  | [] => ""
  | [s] => s
  | s :: rest => s ++ "\n" ++ joinLines rest

/-- `describeOperation(op, workspaceRoot)`: the human-readable line used by
dry runs and by the per-operation result list. -/
def describeOperation (op : RawOp) (_workspaceRoot : String) : String :=
  match op.type.getD "" with
  | "create_file" =>
    "Create file \"" ++ op.path.getD "" ++ "\" (" ++ toString (op.content.getD "").length ++
      " bytes" ++ (if op.overwrite.getD false then ", overwrite if exists" else "") ++ ")"
  | "edit_file" =>
    "Edit file \"" ++ op.path.getD "" ++ "\" (" ++ toString (op.changes.getD []).length ++
      " changes" ++ (if op.create_backup.getD false then ", with backup" else "") ++ ")"
  | "delete_file" =>
    "Delete file \"" ++ op.path.getD "" ++ "\"" ++
      (if op.create_backup.getD false then " (with backup)" else "")
  | "move_file" =>
    "Move file from \"" ++ op.«from».getD "" ++ "\" to \"" ++ op.«to».getD "" ++ "\"" ++
      (if op.overwrite.getD false then " (overwrite if exists)" else "") ++
      (if op.create_backup.getD false then " (with backup)" else "")
  | "copy_file" =>
    "Copy file from \"" ++ op.«from».getD "" ++ "\" to \"" ++ op.«to».getD "" ++ "\"" ++
      (if op.overwrite.getD false then " (overwrite if exists)" else "")
  | "create_directory" =>
    "Create directory \"" ++ op.path.getD "" ++ "\"" ++
      (if !(op.recursive == some false) then " (with parents)" else "")
  | "delete_directory" =>
    "Delete directory \"" ++ op.path.getD "" ++ "\"" ++
      (if op.recursive.getD false then " (recursive)" else "") ++
      (if op.dry_run.getD false then " (dry run)" else "")
  | _ => "Unknown operation type: " ++ op.type.getD ""

/-- The inline backup block of the batch tool for edit/delete/move: read the
file if it exists (the empty string otherwise) and write the content to
`<path>.bak`. -/
def mkBackup (fs : FSState) (resolved : String) (wanted : Bool) : FSState × List FsAction :=
  if wanted then
    let content := if fileExists fs resolved then fsRead fs resolved else ""
    (fsWrite fs (resolved ++ ".bak") content,
      [FsAction.access resolved] ++
        (if fileExists fs resolved then [FsAction.readFile resolved] else []) ++
        [FsAction.writeFile (resolved ++ ".bak") content])
  else (fs, [])

/-- `executeOperation(op, workspaceRoot)`: resolution happens here, inside the
loop's try block, so a resolution failure is a thrown error (`Except.error`).
Post-validation the required fields are present; absent optional fields
default as in the source (`op.overwrite || false`, `op.recursive !== false`
for create_directory, `op.recursive || false` and `op.dry_run || false` for
delete_directory). -/
def executeOperation (op : RawOp) (workspaceRoot : String) (fs : FSState) :
    Except String (String × FSState × List FsAction) :=
  match op.type.getD "" with
  | "create_file" =>
    match resolveWorkspacePath workspaceRoot (op.path.getD "") with
    | Except.error e => Except.error e
    | Except.ok resolved =>
      Except.ok (createFile fs resolved (op.content.getD "") (op.overwrite.getD false))
  | "edit_file" =>
    match resolveWorkspacePath workspaceRoot (op.path.getD "") with
    | Except.error e => Except.error e
    | Except.ok resolved =>
      let (fs1, bakActs) := mkBackup fs resolved (op.create_backup.getD false)
      let r := editFile fs1 resolved (op.changes.getD [])
      Except.ok (r.1, r.2.1, bakActs ++ r.2.2)
  | "delete_file" =>
    match resolveWorkspacePath workspaceRoot (op.path.getD "") with
    | Except.error e => Except.error e
    | Except.ok resolved =>
      let (fs1, bakActs) := mkBackup fs resolved (op.create_backup.getD false)
      let r := deleteFile fs1 resolved
      Except.ok (r.1, r.2.1, bakActs ++ r.2.2)
  | "move_file" =>
    match resolveWorkspacePath workspaceRoot (op.«from».getD "") with
    | Except.error e => Except.error e
    | Except.ok rFrom =>
      match resolveWorkspacePath workspaceRoot (op.«to».getD "") with
      | Except.error e => Except.error e
      | Except.ok rTo =>
        let (fs1, bakActs) := mkBackup fs rFrom (op.create_backup.getD false)
        let r := moveFile fs1 rFrom rTo (op.overwrite.getD false)
        Except.ok (r.1, r.2.1, bakActs ++ r.2.2)
  | "copy_file" =>
    match resolveWorkspacePath workspaceRoot (op.«from».getD "") with
    | Except.error e => Except.error e
    | Except.ok rFrom =>
      match resolveWorkspacePath workspaceRoot (op.«to».getD "") with
      | Except.error e => Except.error e
      | Except.ok rTo => Except.ok (copyFile fs rFrom rTo (op.overwrite.getD false))
  | "create_directory" =>
    match resolveWorkspacePath workspaceRoot (op.path.getD "") with
    | Except.error e => Except.error e
    | Except.ok resolved =>
      Except.ok (createDirectory fs resolved (!(op.recursive == some false)))
  | "delete_directory" =>
    match resolveWorkspacePath workspaceRoot (op.path.getD "") with
    | Except.error e => Except.error e
    | Except.ok resolved =>
      Except.ok (deleteDirectory fs resolved (op.recursive.getD false) (op.dry_run.getD false))
  | other => Except.error ("Unknown operation type: " ++ other)

/-- The execute loop of `batch_operations`: operations run one at a time in
array order; each non-throwing call yields a `✓ ... - Success` line (its
returned message is discarded), a thrown error yields a `✗ ... - Failed:`
line, and — unless `continue_on_error` — a halt message and an immediate
stop. -/
def batchLoop (workspaceRoot : String) (continueOnError : Bool) :
    List (Nat × RawOp) → FSState → List String × FSState × List FsAction
  | [], fs => ([], fs, [])
  | (i, op) :: rest, fs =>
    match executeOperation op workspaceRoot fs with
    | Except.ok (_, fs1, acts) =>
      let r := batchLoop workspaceRoot continueOnError rest fs1
      (("✓ Operation " ++ toString (i + 1) ++ ": " ++ describeOperation op workspaceRoot ++
        " - Success") :: r.1, r.2.1, acts ++ r.2.2)
    | Except.error e =>
      let line := "✗ Operation " ++ toString (i + 1) ++ ": " ++
        describeOperation op workspaceRoot ++ " - Failed: " ++ e
      if !continueOnError then
        ([line, "Batch execution halted due to error. Set continue_on_error=true to continue execution after errors."],
          fs, [])
      else
        let r := batchLoop workspaceRoot continueOnError rest fs
        (line :: r.1, r.2.1, r.2.2)

/-- Arguments of the `batch_operations` tool, after the JSON-parse step. -/
structure BatchArgs where
  operations : List RawOp
  workspace_root : String
  dry_run : Bool := false
  continue_on_error : Bool := false
deriving Repr

/-- The `execute` body of `batch_operations` after JSON parsing: validate
every operation up front and reject the whole batch on any validation error;
a dry run only describes the operations; otherwise run the loop and render
the result summary.  (The advisory project-context update performed after the
loop has no filesystem effect and is not part of the model.) -/
def batchOperationsExecute (args : BatchArgs) (fs : FSState) :
    String × FSState × List FsAction :=
  let verrs := validationErrors args.operations args.workspace_root
  if verrs ≠ [] then
    ("Error: Validation failed for one or more operations:\n" ++ joinLines verrs, fs, [])
  else if args.dry_run then
    let descriptions := args.operations.enum.map fun p =>
      toString (p.1 + 1) ++ ". " ++ describeOperation p.2 args.workspace_root
    ("Dry run: " ++ toString args.operations.length ++
      " operations validated successfully.\n\nOperations:\n" ++ joinLines descriptions ++
      "\n\nTo execute these operations, run this tool again with dry_run=false.", fs, [])
  else
    let r := batchLoop args.workspace_root args.continue_on_error args.operations.enum fs
    ("Executed " ++ toString r.1.length ++ " of " ++ toString args.operations.length ++
      " operations:\n\n" ++ joinLines r.1 ++
      "\n\n[Note for AI assistants: When using this tool, always set the workspace_root parameter to the user's current working directory, not the tool's directory. Check last_terminal_cwd or conversation context.]",
      r.2.1, r.2.2)

/-! ## Auxiliary notions used by the statements -/

/-- `pat` occurs in `s` at position `j`. -/
def occursAt (s pat : List Char) (j : Nat) : Prop := pat <+: s.drop j

instance decOccursAt (s pat : List Char) (j : Nat) : Decidable (occursAt s pat j) :=
  inferInstanceAs (Decidable (pat <+: s.drop j))

/-- The segments `normStep` keeps verbatim when no `..` is around: nonempty
and different from `.`. -/
def keepSeg (seg : List Char) : Bool := !decide (seg = [] ∨ seg = ['.'])

/-! # Theorems -/

/-! ## Character-level facts about the ASCII lowercasing -/

theorem toNat_ofNat_valid (m : Nat) (h : m.isValidChar) : (Char.ofNat m).toNat = m := by
  rw [Char.ofNat, dif_pos h]; rfl

theorem toLower_idem (c : Char) : c.toLower.toLower = c.toLower := by
  show (let n := c.toLower.toNat;
    if n ≥ 65 ∧ n ≤ 90 then Char.ofNat (n + 32) else c.toLower) = c.toLower
  by_cases h : c.toNat ≥ 65 ∧ c.toNat ≤ 90
  · have h1 : c.toLower = Char.ofNat (c.toNat + 32) := by
      show (let n := c.toNat; if n ≥ 65 ∧ n ≤ 90 then Char.ofNat (n + 32) else c) = _
      simp [h]
    have hv : (c.toNat + 32).isValidChar := Or.inl (by omega)
    have h2 : c.toLower.toNat = c.toNat + 32 := by rw [h1, toNat_ofNat_valid _ hv]
    simp only [h2]
    rw [if_neg (by omega)]
  · have h1 : c.toLower = c := by
      show (let n := c.toNat; if n ≥ 65 ∧ n ≤ 90 then Char.ofNat (n + 32) else c) = _
      simp [h]
    rw [h1]
    simp [h]

theorem jsToLower_idem (s : String) : jsToLower (jsToLower s) = jsToLower s := by
  simp [jsToLower, Function.comp_def, toLower_idem]

theorem slashify_jsToLower_idem (s : String) :
    slashify (jsToLower (slashify (jsToLower s))) = slashify (jsToLower s) := by
  simp only [slashify, jsToLower, List.map_map]
  congr 1
  apply List.map_congr_left
  intro c _
  simp only [Function.comp_def]
  by_cases h : c.toLower = '\\'
  · rw [if_pos h]; decide
  · rw [if_neg h, toLower_idem c, if_neg h]

/-! ## C8: the critical-path classifier -/

/-- C8: `isCriticalSystemPath` is a pure classifier insensitive to letter case
and to path-separator style — it depends only on the lowercased,
backslash-normalized form of its input — and it classifies the spec's
examples accordingly: `/etc/passwd` and `C:\Windows\System32\x` (in either
separator style) are critical, `src/app.ts` is not. -/
theorem isCriticalSystemPath_classifier :
    (∀ s t : String, slashify (jsToLower s) = slashify (jsToLower t) →
      isCriticalSystemPath s = isCriticalSystemPath t)
    ∧ (∀ s : String, isCriticalSystemPath (slashify (jsToLower s)) = isCriticalSystemPath s)
    ∧ isCriticalSystemPath "/etc/passwd" = true
    ∧ isCriticalSystemPath "src/app.ts" = false
    ∧ isCriticalSystemPath "C:\\Windows\\System32\\x" = true
    ∧ isCriticalSystemPath "C:/Windows/System32/x" = true :=
  ⟨fun s t h => by unfold isCriticalSystemPath; rw [h],
   fun s => by unfold isCriticalSystemPath; rw [slashify_jsToLower_idem],
   by decide, by decide, by decide, by decide⟩

/-- Witness for C8: the separator- and case-insensitivity applied at the
spec's Windows example. -/
theorem isCriticalSystemPath_classifier_witness :
    isCriticalSystemPath "C:\\Windows\\System32\\x" = isCriticalSystemPath "c:/windows/system32/x" :=
  isCriticalSystemPath_classifier.1 "C:\\Windows\\System32\\x" "c:/windows/system32/x" (by decide)

/-! ## C6: absolute targets are returned verbatim -/

/-- C6: for every workspace root that is nonempty and not `"."`, an absolute
target is returned unchanged — no confinement check against the root and no
normalization of the target takes place, whatever the root looks like. -/
theorem resolve_absolute_target_verbatim (workspaceRoot targetPath : String)
    (h1 : workspaceRoot ≠ "") (h2 : workspaceRoot ≠ ".")
    (h3 : posixIsAbsolute targetPath.data = true) :
    resolveWorkspacePath workspaceRoot targetPath = Except.ok targetPath := by
  unfold resolveWorkspacePath
  rw [if_neg (by simp [h1, h2])]
  simp only [h3, if_true]

/-- Witness for C6: a critical absolute target outside any workspace passes
through untouched. -/
theorem resolve_absolute_target_verbatim_witness :
    resolveWorkspacePath "/ws" "/etc/passwd" = Except.ok "/etc/passwd" :=
  resolve_absolute_target_verbatim "/ws" "/etc/passwd" (by decide) (by decide) (by decide)

/-! ## C7: when resolution fails -/

/-- C7 counterexample: a root that is neither empty nor `"."` but is still not
absolute after Windows normalization does not make resolution fail when the
target is absolute — the target is returned successfully, against the claim
that every non-absolute root fails. -/
theorem resolve_nonabsolute_root_accepts_absolute_target :
    "foo" ≠ "" ∧ "foo" ≠ "."
    ∧ posixIsAbsolute (normalizeWindowsPath "foo").data = false
    ∧ resolveWorkspacePath "foo" "/a" = Except.ok "/a" :=
  ⟨by decide, by decide, by decide, rfl⟩

/-- C7 (amended): resolution fails for an empty or `"."` root whatever the
target, and — when the target is relative — it also fails whenever the root is
still not absolute after Windows normalization.  (An absolute target returns
before the root-absoluteness check, see the counterexample.) -/
theorem resolve_invalid_root_failure (workspaceRoot targetPath : String) :
    (workspaceRoot = "" ∨ workspaceRoot = "." →
      resolveWorkspacePath workspaceRoot targetPath =
        Except.error "workspace_root parameter is required and must be an absolute path")
    ∧ (workspaceRoot ≠ "" → workspaceRoot ≠ "." →
        posixIsAbsolute targetPath.data = false →
        posixIsAbsolute (normalizeWindowsPath workspaceRoot).data = false →
        resolveWorkspacePath workspaceRoot targetPath =
          Except.error ("workspace_root must be an absolute path, got: " ++
            normalizeWindowsPath workspaceRoot)) := by
  constructor
  · intro h
    unfold resolveWorkspacePath
    rw [if_pos h]
  · intro h1 h2 h3 h4
    unfold resolveWorkspacePath
    rw [if_neg (by simp [h1, h2])]
    simp only [h3, h4, Bool.false_eq_true, if_false, Bool.not_false, if_true]

/-- Witness for C7: the two spec examples fail, and so does a relative target
under a non-absolute root. -/
theorem resolve_invalid_root_failure_witness :
    resolveWorkspacePath "" "x" =
      Except.error "workspace_root parameter is required and must be an absolute path"
    ∧ resolveWorkspacePath "." "x" =
      Except.error "workspace_root parameter is required and must be an absolute path"
    ∧ resolveWorkspacePath "foo" "x" =
      Except.error ("workspace_root must be an absolute path, got: " ++ normalizeWindowsPath "foo") :=
  ⟨(resolve_invalid_root_failure "" "x").1 (Or.inl rfl),
   (resolve_invalid_root_failure "." "x").1 (Or.inr rfl),
   (resolve_invalid_root_failure "foo" "x").2 (by decide) (by decide) (by decide) (by decide)⟩

/-! ## C4: the critical check runs before resolution -/

/-- C4: both the `create_file` tool and batch validation apply the
critical-path check to the raw caller-supplied string before workspace
resolution: the traversal target `../../../etc/passwd` passes both checks
although its resolved path `/etc/passwd` is critical, and the tool proceeds
to write that file. -/
theorem critical_check_precedes_resolution_bypass :
    isCriticalSystemPath "../../../etc/passwd" = false
    ∧ validateOperation
        { type := some "create_file", path := some "../../../etc/passwd", content := some "x" }
        0 "/ws" = none
    ∧ resolveWorkspacePath "/ws" "../../../etc/passwd" = Except.ok "/etc/passwd"
    ∧ isCriticalSystemPath "/etc/passwd" = true
    ∧ (FsAction.writeFile "/etc/passwd" "x") ∈
        (createFileTool { path := "../../../etc/passwd", content := "x", workspace_root := "/ws" }
          FSState.empty).2.2
    ∧ fileExists
        (createFileTool { path := "../../../etc/passwd", content := "x", workspace_root := "/ws" }
          FSState.empty).2.1 "/etc/passwd" = true :=
  ⟨by decide, by decide, rfl, by decide, by decide, by decide⟩

/-! ## C5: error-message surfacing -/

/-- C5 counterexample: the engine's `moveFile` reports a missing source — a
failure per the spec's `SourceNotFound` — with a plain message that does not
carry the `Error:` prefix. -/
theorem moveFile_source_not_found_unprefixed :
    (moveFile FSState.empty "/ws/missing.txt" "/ws/b.txt" false).1 =
      "Source file not found: /ws/missing.txt"
    ∧ jsStartsWith "Error:" "Source file not found: /ws/missing.txt" = false :=
  ⟨by decide, by decide⟩

/-- C5 (amended): the error results of the engine and tool surface —
InvalidWorkspaceRoot, CriticalPathDenied, AlreadyExists via `createFile`,
NotFound via `editFile`, NotEmpty via `deleteDirectory`, and the batch
ValidationFailed — are surfaced with the `Error:` prefix, except that
`moveFile`/`copyFile` return their source-missing and destination-exists
messages without the prefix. -/
theorem error_results_prefixed_except_move_copy :
    jsStartsWith "Error:"
      (createFileTool { path := "a.txt", content := "x", workspace_root := "." } FSState.empty).1 = true
    ∧ jsStartsWith "Error:"
      (createFileTool { path := "/etc/passwd", content := "x", workspace_root := "/ws" } FSState.empty).1 = true
    ∧ jsStartsWith "Error:"
      (createFile (fsWrite FSState.empty "/ws/a.txt" "old") "/ws/a.txt" "x" false).1 = true
    ∧ jsStartsWith "Error:"
      (createFileTool { path := "a.txt", content := "x", workspace_root := "/ws" }
        (fsWrite FSState.empty "/ws/a.txt" "old")).1 = true
    ∧ jsStartsWith "Error:"
      (editFile FSState.empty "/ws/a.txt" [{ type := "append", content := some "x" }]).1 = true
    ∧ jsStartsWith "Error:"
      (deleteDirectory (fsWrite (fsAddDir FSState.empty "/ws/d") "/ws/d/f" "x") "/ws/d" false false).1 = true
    ∧ jsStartsWith "Error:"
      (batchOperationsExecute
        { operations := [{ type := some "delete_file", path := some "/etc/shadow" }],
          workspace_root := "/ws" } FSState.empty).1 = true
    ∧ jsStartsWith "Error:" (moveFile FSState.empty "/ws/missing.txt" "/ws/b.txt" false).1 = false
    ∧ jsStartsWith "Error:" (copyFile FSState.empty "/ws/missing.txt" "/ws/b.txt" false).1 = false
    ∧ jsStartsWith "Error:"
      (moveFile (fsWrite (fsWrite FSState.empty "/ws/a.txt" "1") "/ws/b.txt" "2")
        "/ws/a.txt" "/ws/b.txt" false).1 = false :=
  ⟨by decide, by decide, by decide, by decide, by decide, by decide, by decide,
   by decide, by decide, by decide⟩

/-! ## C3: batch failure reporting -/

/-- C3 (documents the code bug): a batch `move_file` whose source file does
not exist is reported as `✓ ... - Success`: `moveFile` returns its
`Source file not found` message instead of throwing, and the batch loop
records every non-throwing operation as a success, discarding the returned
message — so the failure is neither recorded as failed nor does it stop the
batch, against the spec's per-operation error contract. -/
theorem batch_move_missing_source_reported_success :
    fileExists FSState.empty "/ws/missing.txt" = false
    ∧ executeOperation
        { type := some "move_file", «from» := some "missing.txt", «to» := some "b.txt" }
        "/ws" FSState.empty =
      Except.ok ("Source file not found: /ws/missing.txt", FSState.empty,
        [FsAction.access "/ws/missing.txt"])
    ∧ (batchOperationsExecute
        { operations := [{ type := some "move_file", «from» := some "missing.txt", «to» := some "b.txt" }],
          workspace_root := "/ws" } FSState.empty).1 =
      "Executed 1 of 1 operations:\n\n✓ Operation 1: Move file from \"missing.txt\" to \"b.txt\" - Success\n\n[Note for AI assistants: When using this tool, always set the workspace_root parameter to the user's current working directory, not the tool's directory. Check last_terminal_cwd or conversation context.]"
    ∧ jsIncludes "✗"
        (batchOperationsExecute
          { operations := [{ type := some "move_file", «from» := some "missing.txt", «to» := some "b.txt" }],
            workspace_root := "/ws" } FSState.empty).1 = false :=
  ⟨by decide, rfl, by decide, by decide⟩

/-! ## C2: batch validation is all-or-nothing -/

/-- C2: if any operation of a parsed batch fails validation (missing required
field, unknown type, or a critical path), the whole batch is rejected with
the validation-failure message before anything executes: the filesystem is
returned untouched and no filesystem action is performed, whatever the
`dry_run` and `continue_on_error` flags say. -/
theorem batch_validation_rejects_whole_batch (ops : List RawOp) (workspaceRoot : String)
    (dryRun continueOnError : Bool) (fs : FSState)
    (h : ∃ p ∈ ops.enum, validateOperation p.2 p.1 workspaceRoot ≠ none) :
    batchOperationsExecute
        { operations := ops, workspace_root := workspaceRoot,
          dry_run := dryRun, continue_on_error := continueOnError } fs =
      ("Error: Validation failed for one or more operations:\n" ++
        joinLines (validationErrors ops workspaceRoot), fs, []) := by
  have hne : validationErrors ops workspaceRoot ≠ [] := by
    intro he
    obtain ⟨p, hp, hv⟩ := h
    exact hv (List.filterMap_eq_nil_iff.mp he p hp)
  unfold batchOperationsExecute
  rw [if_pos hne]

/-- Witness for C2: the spec's scenario — a three-operation batch whose
second operation targets `/etc/shadow` — is rejected whole, with the
filesystem untouched and no action performed. -/
theorem batch_validation_rejects_whole_batch_witness :
    batchOperationsExecute
        { operations :=
            [{ type := some "create_file", path := some "a.txt", content := some "1" },
             { type := some "delete_file", path := some "/etc/shadow" },
             { type := some "create_file", path := some "b.txt", content := some "2" }],
          workspace_root := "/ws", dry_run := false, continue_on_error := false }
        FSState.empty =
      ("Error: Validation failed for one or more operations:\n" ++
        joinLines (validationErrors
          [{ type := some "create_file", path := some "a.txt", content := some "1" },
           { type := some "delete_file", path := some "/etc/shadow" },
           { type := some "create_file", path := some "b.txt", content := some "2" }] "/ws"),
        FSState.empty, []) :=
  batch_validation_rejects_whole_batch _ "/ws" false false FSState.empty
    ⟨(1, { type := some "delete_file", path := some "/etc/shadow" }), by decide, by decide⟩

/-! ## C9: replace rewrites only the first occurrence -/

theorem str_ne_empty_data (s : String) (h : s ≠ "") : s.data ≠ [] := by
  intro hd
  apply h
  cases s with
  | mk d => cases hd; rfl

theorem replaceFirst_cons (c : Char) (cs old new : List Char) :
    replaceFirst (c :: cs) old new =
      if decide (old <+: c :: cs) then new ++ (c :: cs).drop old.length
      else c :: replaceFirst cs old new := rfl

theorem replaceFirst_at_first (a old new b : List Char) (hold : old ≠ [])
    (hfirst : ∀ j < a.length, ¬ old <+: (a ++ old ++ b).drop j) :
    replaceFirst (a ++ old ++ b) old new = a ++ new ++ b := by
  induction a with
  | nil =>
    cases old with
    | nil => exact absurd rfl hold
    | cons c cs =>
      show replaceFirst (c :: (cs ++ b)) (c :: cs) new = new ++ b
      have hpre : c :: cs <+: c :: (cs ++ b) := by
        simp
      rw [replaceFirst_cons, if_pos (decide_eq_true hpre)]
      congr 1
      exact List.drop_left (c :: cs) b
  | cons c a' ih =>
    have h0 : ¬ old <+: c :: (a' ++ old ++ b) := by
      have := hfirst 0 (Nat.succ_pos _)
      simpa using this
    show replaceFirst (c :: (a' ++ old ++ b)) old new = c :: (a' ++ new ++ b)
    rw [replaceFirst_cons, if_neg (by simpa using h0)]
    congr 1
    exact ih (fun j hj => by
      have := hfirst (j + 1) (Nat.succ_lt_succ hj)
      simpa using this)

/-- C9 (amended): a `replace` change with non-empty `old` and non-empty `new`
replaces exactly the first textual occurrence of `old`: when `old` occurs at
position `|a|` of `a ++ old ++ b` and at no earlier position, the edit
rewrites the content to `a ++ new ++ b`, leaving every later occurrence
(inside `b`) intact.  An empty `old` or `new` is skipped by the truthiness
guard (see the counterexample); replacement strings with JS `$`-substitution
patterns are outside the model, whence the unused third hypothesis. -/
theorem replace_first_occurrence_only (a b old new : String)
    (h1 : old ≠ "") (h2 : new ≠ "") (_h3 : '$' ∉ new.data)
    (hfirst : ∀ j < a.data.length, ¬ occursAt (a.data ++ old.data ++ b.data) old.data j) :
    applyChanges (a.data ++ old.data ++ b.data)
        [{ type := "replace", old := some old, new := some new }] =
      a.data ++ new.data ++ b.data := by
  have hguard1 : truthy (some old) = true := by
    simp only [truthy, bne_iff_ne, ne_eq]; exact h1
  have hguard2 : truthy (some new) = true := by
    simp only [truthy, bne_iff_ne, ne_eq]; exact h2
  show applyChange (a.data ++ old.data ++ b.data)
      { type := "replace", old := some old, new := some new } = _
  unfold applyChange
  rw [if_pos ⟨rfl, hguard1, hguard2⟩]
  exact replaceFirst_at_first a.data old.data new.data b.data
    (str_ne_empty_data old h1) (fun j hj => hfirst j hj)

/-- Witness for C9: on `"aa"`, replacing `"a"` by `"b"` rewrites only the
first occurrence, yielding `"ba"`. -/
theorem replace_first_occurrence_only_witness :
    applyChanges "aa".data [{ type := "replace", old := some "a", new := some "b" }] = "ba".data := by
  have h := replace_first_occurrence_only "" "a" "a" "b" (by decide) (by decide) (by decide)
    (fun j hj => absurd hj (Nat.not_lt_zero j))
  simpa using h

/-- C9 counterexample: a `replace` change whose `new` field is the empty
string is skipped by the truthiness guard, so the occurrence of `old` is NOT
replaced: on `"ab"`, replacing `"a"` by `""` should yield `"b"` but the
content comes back unchanged. -/
theorem replace_empty_new_skipped :
    occursAt "ab".data "a".data 0
    ∧ applyChanges "ab".data [{ type := "replace", old := some "a", new := some "" }] = "ab".data
    ∧ replaceFirst "ab".data "a".data "".data = "b".data
    ∧ "ab".data ≠ "b".data :=
  ⟨by decide, by decide, by decide, by decide⟩

/-! ## C10: insert_at_line range behaviour -/

/-- C10 (amended): an `insert_at_line` change with non-empty content and
`0 ≤ line ≤ lineCount` (counting the segments of a newline split) inserts the
content as a new element at that index and rejoins with newlines; an
out-of-range line leaves the content unchanged, with no error.  An empty
content is skipped by the truthiness guard even in range (see the
counterexample). -/
theorem insert_at_line_spec (content c : String) (line : Int) (hc : c ≠ "") :
    ((0 ≤ line ∧ line ≤ ((splitOnChar '\n' content.data).length : Int)) →
      applyChanges content.data
          [{ type := "insert_at_line", line := some line, content := some c }] =
        joinWithChar '\n' (spliceInsert line.toNat c.data (splitOnChar '\n' content.data)))
    ∧ (¬ (0 ≤ line ∧ line ≤ ((splitOnChar '\n' content.data).length : Int)) →
      applyChanges content.data
          [{ type := "insert_at_line", line := some line, content := some c }] =
        content.data) := by
  have hguard : truthy (some c) = true := by
    simp only [truthy, bne_iff_ne, ne_eq]; exact hc
  constructor <;> intro h <;>
  · show applyChange content.data
        { type := "insert_at_line", line := some line, content := some c } = _
    unfold applyChange
    rw [if_neg (by simp), if_neg (by simp), if_neg (by simp),
      if_pos ⟨rfl, by simp, hguard⟩]
    simp only [Option.getD_some]
    first
    | rw [if_pos h]
    | rw [if_neg h]

/-- Witness for C10: `line = 100` on a three-line file leaves the content
unchanged. -/
theorem insert_at_line_spec_witness :
    applyChanges "l1\nl2\nl3".data
        [{ type := "insert_at_line", line := some 100, content := some "z" }] =
      "l1\nl2\nl3".data :=
  (insert_at_line_spec "l1\nl2\nl3" "z" 100 (by decide)).2 (by decide)

/-- C10 counterexample: an in-range `insert_at_line` whose content is the
empty string is skipped by the truthiness guard: on the one-line file `"x"`
with `line = 0` the claim predicts `"\nx"`, but the content comes back
unchanged. -/
theorem insert_empty_content_skipped :
    (0 ≤ (0 : Int) ∧ (0 : Int) ≤ ((splitOnChar '\n' "x".data).length : Int))
    ∧ applyChanges "x".data
        [{ type := "insert_at_line", line := some 0, content := some "" }] = "x".data
    ∧ joinWithChar '\n' (spliceInsert 0 "".data (splitOnChar '\n' "x".data)) = "\nx".data
    ∧ "x".data ≠ "\nx".data :=
  ⟨by decide, by decide, by decide, by decide⟩

/-! ## C1: relative resolution and workspace confinement -/

theorem splitOnChar_ne_nil (sep : Char) (s : List Char) : splitOnChar sep s ≠ [] := by
  induction s with
  | nil => simp [splitOnChar]
  | cons c cs ih =>
    rw [splitOnChar]
    split
    · simp
    · split <;> simp

theorem splitOnChar_cons_sep (sep : Char) (s : List Char) :
    splitOnChar sep (sep :: s) = [] :: splitOnChar sep s := by
  cases h : splitOnChar sep s with
  | nil => exact absurd h (splitOnChar_ne_nil sep s)
  | cons seg rest =>
    rw [splitOnChar, h]
    simp

theorem splitOnChar_append (sep : Char) (a b : List Char) :
    splitOnChar sep (a ++ sep :: b) = splitOnChar sep a ++ splitOnChar sep b := by
  induction a with
  | nil =>
    rw [List.nil_append, splitOnChar_cons_sep]
    rfl
  | cons c a' ih =>
    by_cases hc : c = sep
    · subst hc
      rw [List.cons_append, splitOnChar_cons_sep, splitOnChar_cons_sep, ih, List.cons_append]
    · cases h : splitOnChar sep a' with
      | nil => exact absurd h (splitOnChar_ne_nil sep a')
      | cons seg rest =>
        rw [List.cons_append, splitOnChar, ih, h, List.cons_append, splitOnChar, h]
        simp [hc]

theorem not_mem_of_mem_splitOnChar (sep : Char) (s : List Char) :
    ∀ seg ∈ splitOnChar sep s, sep ∉ seg := by
  induction s with
  | nil =>
    intro seg hseg
    simp [splitOnChar] at hseg
    simp [hseg]
  | cons c cs ih =>
    intro seg hseg
    rw [splitOnChar] at hseg
    cases h : splitOnChar sep cs with
    | nil => exact absurd h (splitOnChar_ne_nil sep cs)
    | cons seg0 rest =>
      rw [h] at hseg
      have hseg' : seg ∈ (if c = sep then [] :: seg0 :: rest else (c :: seg0) :: rest) := hseg
      by_cases hc : c = sep
      · rw [if_pos hc] at hseg'
        rcases List.mem_cons.mp hseg' with he | hm
        · simp [he]
        · exact ih seg (h ▸ hm)
      · rw [if_neg hc] at hseg'
        rcases List.mem_cons.mp hseg' with he | hm
        · subst he
          intro hmem
          rcases List.mem_cons.mp hmem with he' | hm'
          · exact hc he'.symm
          · exact ih seg0 (h ▸ List.mem_cons_self ..) hm'
        · exact ih seg (h ▸ List.mem_cons_of_mem _ hm)

theorem foldl_normStep_no_dotdot (segs : List (List Char)) (st : List (List Char))
    (h : ['.', '.'] ∉ segs) :
    segs.foldl normStep st = st ++ segs.filter keepSeg := by
  induction segs generalizing st with
  | nil => simp
  | cons seg rest ih =>
    have hseg : seg ≠ ['.', '.'] := fun he => h (by rw [he]; exact List.mem_cons_self ..)
    have hrest : ['.', '.'] ∉ rest := fun hm => h (List.mem_cons_of_mem _ hm)
    rw [List.foldl_cons, ih _ hrest]
    by_cases hks : seg = [] ∨ seg = ['.']
    · have hk : keepSeg seg = false := by simp [keepSeg, hks]
      rw [normStep, if_pos hks, List.filter_cons, hk]
      simp
    · have hk : keepSeg seg = true := by simp [keepSeg]; tauto
      rw [normStep, if_neg hks, if_neg hseg, List.filter_cons, hk]
      simp

theorem mem_foldl_normStep (segs : List (List Char)) (st : List (List Char))
    (x : List Char) (hx : x ∈ segs.foldl normStep st) :
    x ∈ st ∨ (x ∈ segs ∧ x ≠ [] ∧ x ≠ ['.'] ∧ x ≠ ['.', '.']) := by
  induction segs generalizing st with
  | nil => exact Or.inl hx
  | cons seg rest ih =>
    rw [List.foldl_cons] at hx
    rcases ih (normStep st seg) hx with hmem | ⟨hm, hx1, hx2, hx3⟩
    · unfold normStep at hmem
      by_cases hks : seg = [] ∨ seg = ['.']
      · rw [if_pos hks] at hmem
        exact Or.inl hmem
      · by_cases hdd : seg = ['.', '.']
        · rw [if_neg hks, if_pos hdd] at hmem
          exact Or.inl ((List.dropLast_sublist st).subset hmem)
        · rw [if_neg hks, if_neg hdd] at hmem
          rcases List.mem_append.mp hmem with hm | hm
          · exact Or.inl hm
          · have hxe : x = seg := by simpa using hm
            subst hxe
            exact Or.inr ⟨List.mem_cons_self .., fun he => hks (Or.inl he),
              fun he => hks (Or.inr he), hdd⟩
    · exact Or.inr ⟨List.mem_cons_of_mem _ hm, hx1, hx2, hx3⟩

theorem splitOnChar_of_not_mem (sep : Char) (s : List Char) (h : sep ∉ s) :
    splitOnChar sep s = [s] := by
  induction s with
  | nil => rfl
  | cons c cs ih =>
    have hc : ¬ c = sep := fun he => h (by rw [he]; exact List.mem_cons_self ..)
    have hcs : sep ∉ cs := fun hm => h (List.mem_cons_of_mem _ hm)
    rw [splitOnChar, ih hcs]
    simp [hc]

theorem splitOnChar_joinWithChar (sep : Char) (L : List (List Char)) (hL : L ≠ [])
    (h : ∀ seg ∈ L, sep ∉ seg) :
    splitOnChar sep (joinWithChar sep L) = L := by
  induction L with
  | nil => exact absurd rfl hL
  | cons seg rest ih =>
    cases rest with
    | nil => exact splitOnChar_of_not_mem sep seg (h seg (List.mem_cons_self ..))
    | cons seg2 rest2 =>
      show splitOnChar sep (seg ++ sep :: joinWithChar sep (seg2 :: rest2)) = seg :: seg2 :: rest2
      rw [splitOnChar_append, splitOnChar_of_not_mem sep seg (h seg (List.mem_cons_self ..)),
        ih (by simp) (fun s hs => h s (List.mem_cons_of_mem _ hs))]
      rfl

theorem normSegs_eq_self (L : List (List Char))
    (h : ∀ x ∈ L, x ≠ [] ∧ x ≠ ['.'] ∧ x ≠ ['.', '.']) :
    normSegs L = L := by
  unfold normSegs
  rw [foldl_normStep_no_dotdot L [] (fun hm => (h _ hm).2.2 rfl), List.nil_append]
  apply List.filter_eq_self.mpr
  intro x hx
  simp only [keepSeg, Bool.not_eq_true', decide_eq_false_iff_not]
  exact fun hor => hor.elim (h x hx).1 (h x hx).2.1

theorem normalizeWindowsPath_no_escape (p : String) (h : ¬ ("%3A".data <:+: p.data)) :
    normalizeWindowsPath p = p := by
  have h1 : jsIncludes "%3A" p = false := by
    simp only [jsIncludes, decide_eq_false_iff_not]
    exact h
  have h2 : jsIncludes "C:\\c%3A\\" p = false := by
    simp only [jsIncludes, decide_eq_false_iff_not]
    exact fun hinf => h (List.IsInfix.trans (by decide) hinf)
  have h3 : jsIncludes "C:\\C%3A\\" p = false := by
    simp only [jsIncludes, decide_eq_false_iff_not]
    exact fun hinf => h (List.IsInfix.trans (by decide) hinf)
  unfold normalizeWindowsPath
  rw [h1, h2, h3]
  simp

/-- C1 counterexample: the relative traversal target `../etc/passwd` resolves
outside the workspace root `/ws`: resolution succeeds with `/etc/passwd`,
which is not a descendant of the root (and is a critical path). -/
theorem resolve_dotdot_escapes_root :
    posixIsAbsolute "../etc/passwd".data = false
    ∧ resolveWorkspacePath "/ws" "../etc/passwd" = Except.ok "/etc/passwd"
    ∧ isDescendantOf "/etc/passwd" "/ws" = false :=
  ⟨by decide, rfl, by decide⟩

/-- C1 (amended): for a workspace root that is nonempty, not `"."`, absolute
and free of URL-encoded drive markers, and a relative target none of whose
slash-separated segments is `..`, resolution succeeds with the joined
normalized path, which is absolute and a descendant of the root.  (A relative
target with enough `..` segments escapes the root — see the counterexample.) -/
theorem resolve_relative_descendant (workspaceRoot targetPath : String)
    (h1 : workspaceRoot ≠ "") (h2 : workspaceRoot ≠ ".")
    (h3 : posixIsAbsolute workspaceRoot.data = true)
    (h4 : ¬ ("%3A".data <:+: workspaceRoot.data))
    (h5 : posixIsAbsolute targetPath.data = false)
    (h6 : ['.', '.'] ∉ splitOnChar '/' targetPath.data) :
    resolveWorkspacePath workspaceRoot targetPath =
      Except.ok (String.mk (posixResolve workspaceRoot.data targetPath.data))
    ∧ posixIsAbsolute (posixResolve workspaceRoot.data targetPath.data) = true
    ∧ isDescendantOf (String.mk (posixResolve workspaceRoot.data targetPath.data))
        workspaceRoot = true := by
  have hnw : normalizeWindowsPath workspaceRoot = workspaceRoot :=
    normalizeWindowsPath_no_escape _ h4
  refine ⟨?_, by simp [posixResolve, posixIsAbsolute], ?_⟩
  · unfold resolveWorkspacePath
    rw [if_neg (by simp [h1, h2])]
    simp only [hnw, h5, Bool.false_eq_true, if_false, h3, Bool.not_true, if_true]
  · have hL : normSegs (splitOnChar '/' (workspaceRoot.data ++ '/' :: targetPath.data)) =
        absSegs workspaceRoot.data ++ (splitOnChar '/' targetPath.data).filter keepSeg := by
      rw [splitOnChar_append]
      unfold normSegs
      rw [List.foldl_append]
      exact foldl_normStep_no_dotdot _ _ h6
    have hmemA : ∀ x ∈ absSegs workspaceRoot.data ++
          (splitOnChar '/' targetPath.data).filter keepSeg,
        ('/' ∉ x) ∧ x ≠ [] ∧ x ≠ ['.'] ∧ x ≠ ['.', '.'] := by
      intro x hx
      rcases List.mem_append.mp hx with hx | hx
      · rcases mem_foldl_normStep _ [] x hx with hst | ⟨hm, hne, hdot, hdd⟩
        · simp at hst
        · exact ⟨not_mem_of_mem_splitOnChar '/' workspaceRoot.data x hm, hne, hdot, hdd⟩
      · have hm := List.mem_of_mem_filter hx
        have hk := List.of_mem_filter hx
        refine ⟨not_mem_of_mem_splitOnChar '/' targetPath.data x hm, ?_, ?_,
          fun he => h6 (he ▸ hm)⟩
        · intro he
          rw [he] at hk
          simp [keepSeg] at hk
        · intro he
          rw [he] at hk
          simp [keepSeg] at hk
    have key : ∀ A : List (List Char),
        (∀ x ∈ A, ('/' ∉ x) ∧ x ≠ [] ∧ x ≠ ['.'] ∧ x ≠ ['.', '.']) →
        normSegs ([] :: splitOnChar '/' (joinWithChar '/' A)) = A := by
      intro A hA
      have hstep : normSegs ([] :: splitOnChar '/' (joinWithChar '/' A)) =
          normSegs (splitOnChar '/' (joinWithChar '/' A)) := by
        unfold normSegs
        rw [List.foldl_cons]
        rfl
      rw [hstep]
      cases A with
      | nil => rfl
      | cons a rest =>
        rw [splitOnChar_joinWithChar '/' (a :: rest) (by simp)
          (fun seg hseg => (hA seg hseg).1)]
        exact normSegs_eq_self _ (fun x hx => (hA x hx).2)
    have habs : absSegs (posixResolve workspaceRoot.data targetPath.data) =
        absSegs workspaceRoot.data ++ (splitOnChar '/' targetPath.data).filter keepSeg := by
      show normSegs (splitOnChar '/' ('/' :: joinWithChar '/'
        (normSegs (splitOnChar '/' (workspaceRoot.data ++ '/' :: targetPath.data))))) = _
      rw [hL, splitOnChar_cons_sep]
      exact key _ hmemA
    unfold isDescendantOf
    rw [decide_eq_true_eq]
    show absSegs workspaceRoot.data <+: absSegs (posixResolve workspaceRoot.data targetPath.data)
    rw [habs]
    exact List.prefix_append _ _

/-- Witness for C1: `src/app.ts` under `/ws` resolves inside the workspace. -/
theorem resolve_relative_descendant_witness :
    resolveWorkspacePath "/ws" "src/app.ts" =
      Except.ok (String.mk (posixResolve "/ws".data "src/app.ts".data))
    ∧ posixIsAbsolute (posixResolve "/ws".data "src/app.ts".data) = true
    ∧ isDescendantOf (String.mk (posixResolve "/ws".data "src/app.ts".data)) "/ws" = true :=
  resolve_relative_descendant "/ws" "src/app.ts" (by decide) (by decide) (by decide)
    (by decide) (by decide) (by decide)

end Tanuki
